import Mathlib

/-!
Verification of the image-analysis client (src/app.py) against its
natural-language specification.

Shallow embedding: the process environment is a function from variable
names to optional string values, the filesystem is a function from paths
to optional byte lists, and the remote service (the OpenAI chat-completions
endpoint) is a transport function from a request to either a raised error
message or a response value.  Python exceptions are modelled with
`Except String`: a value `Except.error msg` escaping an operation models an
uncaught Python exception with message `msg` propagating to the caller,
while `Except.ok r` models a normal return of the record `r`.  The
`print` calls in the source are pure console output and are not modelled.
-/

namespace VisionApp

/-- Process environment: `os.getenv` semantics. -/
def Env : Type := String → Option String

/-- Filesystem: a path resolves to the file's full binary contents
(a list of byte values) or to nothing when no readable file is there. -/
def FS : Type := String → Option (List Nat)

/-- Python truthiness of an optional string (`if not api_key` is taken
when the variable is unset or set to the empty string). -/
def truthy : Option String → Bool
  | none => false
  | some s => !s.toList.isEmpty

/-! ### Base64 encoding (semantics of `base64.b64encode`) -/

/-- The standard base64 alphabet, in index order. -/
def base64Alphabet : List Char :=
  "ABCDEFGHIJKLMNOPQRSTUVWXYZabcdefghijklmnopqrstuvwxyz0123456789+/".toList

/-- Character for a 6-bit group. -/
def b64c (n : Nat) : Char := base64Alphabet.getD n 'A'

/-- Standard base64 encoding of a byte list, with `=` padding and no line
wrapping, exactly as `base64.b64encode` produces. -/
def base64EncodeChars : List Nat → List Char
  | [] => []
  | [a] => [b64c (a / 4), b64c (a % 4 * 16), '=', '=']
  | [a, b] => [b64c (a / 4), b64c (a % 4 * 16 + b / 16), b64c (b % 16 * 4), '=']
  | a :: b :: c :: rest =>
      b64c (a / 4) :: b64c (a % 4 * 16 + b / 16) :: b64c (b % 16 * 4 + c / 64) ::
        b64c (c % 64) :: base64EncodeChars rest

/-- The base64 string for a byte list (`base64.b64encode(...).decode('utf-8')`). -/
def base64Encode (bytes : List Nat) : String := String.mk (base64EncodeChars bytes)

/-- Value of a base64 alphabet character. -/
def b64val (c : Char) : Nat := base64Alphabet.indexOf c

/-- Standard base64 decoding of well-formed encoder output:
four characters decode to three bytes, with `=` padding marking a final
one- or two-byte group. -/
def base64Decode : List Char → List Nat
  | c1 :: c2 :: c3 :: c4 :: rest =>
      if c3 = '=' then [b64val c1 * 4 + b64val c2 / 16]
      else if c4 = '=' then
        [b64val c1 * 4 + b64val c2 / 16, b64val c2 % 16 * 16 + b64val c3 / 4]
      else
        (b64val c1 * 4 + b64val c2 / 16) :: (b64val c2 % 16 * 16 + b64val c3 / 4) ::
          (b64val c3 % 4 * 64 + b64val c4) :: base64Decode rest
  | _ => []

/-! ### Path suffix and media type (semantics of `Path(p).suffix.lower()`
and the `mime_types` lookup) -/

/-- Split a character list at a separator (semantics of `str.split`). -/
def splitOnSep (sep : Char) : List Char → List (List Char)
  | [] => [[]]
  | c :: rest =>
      match splitOnSep sep rest with
      | [] => [[]]
      | g :: gs => if c = sep then [] :: g :: gs else (c :: g) :: gs

/-- The final path component, as `pathlib.PurePosixPath(p).name`: empty
and `.` components are dropped, the last remaining component is the name. -/
def pathName (p : String) : String :=
  match ((splitOnSep '/' p.toList).filter (fun g => g ≠ [] ∧ g ≠ ['.'])).getLast? with
  | none => ""
  | some g => String.mk g

/-- Index of the last occurrence of a character, if any. -/
def lastIdxOf (c : Char) (l : List Char) : Option Nat :=
  match l.reverse.findIdx? (fun x => x = c) with
  | none => none
  | some rj => some (l.length - 1 - rj)

/-- `pathlib.PurePath(p).suffix`: the final dot of the name and what
follows it, unless the dot is the first or last character of the name. -/
def pathSuffix (p : String) : String :=
  let cs := (pathName p).toList
  match lastIdxOf '.' cs with
  | none => ""
  | some i => if 0 < i ∧ i < cs.length - 1 then String.mk (cs.drop i) else ""

/-- ASCII lowercasing, as `str.lower()` acts on ASCII extensions. -/
def asciiLower (s : String) : String :=
  String.mk (s.toList.map (fun c =>
    if 'A' ≤ c ∧ c ≤ 'Z' then Char.ofNat (c.toNat + 32) else c))

/-- The fixed extension-to-media-type table (`mime_types` in the source). -/
def mimeTable : List (String × String) :=
  [(".jpg", "image/jpeg"), (".jpeg", "image/jpeg"), (".png", "image/png"),
   (".gif", "image/gif"), (".webp", "image/webp")]

/-- `mime_types.get(Path(p).suffix.lower(), 'image/jpeg')`. -/
def mimeTypeFor (p : String) : String :=
  match mimeTable.lookup (asciiLower (pathSuffix p)) with
  | some m => m
  | none => "image/jpeg"

/-! ### Requests, responses and results -/

/-- One element of the `content` array of the user message: a text block,
or an image block carrying a URL and an optional `detail` field
(`none` models the key being absent from the JSON object). -/
inductive ContentBlock where
  | text (text : String)
  | imageUrl (url : String) (detail : Option String)
deriving DecidableEq, Repr

/-- The request handed to `client.chat.completions.create`: the model
identifier, the single user message's content array, and `max_tokens`. -/
structure Request where
  model : String
  content : List ContentBlock
  max_tokens : Nat
deriving DecidableEq, Repr

/-- The `message` of one response choice. -/
structure Message where
  role : String
  content : String
deriving DecidableEq, Repr

/-- One element of the response's `choices` array. -/
structure Choice where
  index : Nat
  message : Message
  finish_reason : String
deriving DecidableEq, Repr

/-- The response's `usage` object. -/
structure Usage where
  prompt_tokens : Nat
  completion_tokens : Nat
  total_tokens : Nat
deriving DecidableEq, Repr

/-- A successful response from the remote service. -/
structure Response where
  id : String
  model : String
  created : Nat
  choices : List Choice
  usage : Usage
deriving DecidableEq, Repr

/-- The remote service as seen through the client library: either raises
(error message) or returns a response. -/
def Transport : Type := Request → Except String Response

/-- The dictionary returned by the three analysis operations; every key is
optional because the success and failure branches populate different keys. -/
structure AnalysisResult where
  success : Bool
  analysis : Option String := none
  model : Option String := none
  tokens_used : Option Nat := none
  prompt_tokens : Option Nat := none
  completion_tokens : Option Nat := none
  error : Option String := none
deriving DecidableEq, Repr

/-- The failure record `{'success': False, 'error': msg}`. -/
def failureResult (msg : String) : AnalysisResult :=
  { success := false, error := some msg }

/-! ### The operations of src/app.py -/

/-- `encode_image_to_base64`: read the file in full, in binary, in one
read, and base64-encode it; raise `FileNotFoundError` with the shown
message when the path does not resolve to a file. -/
def encode_image_to_base64 (fs : FS) (image_path : String) : Except String String :=
  match fs image_path with
  | none => .error ("Image file not found: " ++ image_path)
  | some bytes => .ok (base64Encode bytes)

/-- Normalization of the remote call's outcome shared by the two
single-image operations: a raised transport error is caught into a
failure record; on a response, `choices[0]` is read (an `IndexError` on an
empty list is caught into a failure record too) and the full success
record is assembled. -/
def singleResponseResult : Except String Response → AnalysisResult
  | .error e => failureResult e
  | .ok resp =>
      match resp.choices with
      | [] => failureResult "list index out of range"
      | choice :: _ =>
          { success := true
            analysis := some choice.message.content
            model := some resp.model
            tokens_used := some resp.usage.total_tokens
            prompt_tokens := some resp.usage.prompt_tokens
            completion_tokens := some resp.usage.completion_tokens
            error := none }

/-- `analyze_image_from_url`.  The credential check runs before the
`try:` block, so its `ValueError` escapes as `Except.error`; everything
inside the `try:` is caught and normalized into an `AnalysisResult`. -/
def analyze_image_from_url (env : Env) (tr : Transport)
    (image_url prompt detail : String) : Except String AnalysisResult :=
  if !truthy (env "OPENAI_API_KEY") then
    .error "OPENAI_API_KEY environment variable not set"
  else
    .ok (singleResponseResult (tr
      { model := "gpt-4o"
        content := [ContentBlock.text prompt,
                    ContentBlock.imageUrl image_url (some detail)]
        max_tokens := 1000 }))

/-- `analyze_image_from_file`.  Credential check first (outside the
`try:`), then inside the `try:` the file is read and encoded, the media
type is derived from the lowercased extension, and a single request with
the inline data URI is sent. -/
def analyze_image_from_file (env : Env) (fs : FS) (tr : Transport)
    (image_path prompt detail : String) : Except String AnalysisResult :=
  if !truthy (env "OPENAI_API_KEY") then
    .error "OPENAI_API_KEY environment variable not set"
  else
    .ok (match encode_image_to_base64 fs image_path with
      | .error e => failureResult e
      | .ok base64_image =>
          singleResponseResult (tr
            { model := "gpt-4o"
              content := [ContentBlock.text prompt,
                          ContentBlock.imageUrl
                            ("data:" ++ mimeTypeFor image_path ++ ";base64," ++ base64_image)
                            (some detail)]
              max_tokens := 1000 }))

/-- The loop body of `analyze_multiple_images`: a source starting with
the literal `http://` or `https://` becomes a URL image block verbatim;
any other source is read as a local file and becomes an inline data-URI
block; both omit the `detail` key. -/
def buildOneContent (fs : FS) (source : String) : Except String ContentBlock :=
  if source.toList.take 7 = "http://".toList ∨ source.toList.take 8 = "https://".toList then
    .ok (ContentBlock.imageUrl source none)
  else
    match encode_image_to_base64 fs source with
    | .error e => .error e
    | .ok base64_image =>
        .ok (ContentBlock.imageUrl
          ("data:" ++ mimeTypeFor source ++ ";base64," ++ base64_image) none)

/-- The `for source in image_sources` loop: image blocks are appended in
order; a raised file error aborts the loop (to be caught by the
operation's `try:`). -/
def buildContentList (fs : FS) : List String → Except String (List ContentBlock)
  | [] => .ok []
  | s :: rest =>
      match buildOneContent fs s with
      | .error e => .error e
      | .ok b =>
          match buildContentList fs rest with
          | .error e => .error e
          | .ok bs => .ok (b :: bs)

/-- Normalization of the remote call's outcome in
`analyze_multiple_images`: same catching behaviour, but the success
record carries only the analysis text and the total token count. -/
def multiResponseResult : Except String Response → AnalysisResult
  | .error e => failureResult e
  | .ok resp =>
      match resp.choices with
      | [] => failureResult "list index out of range"
      | choice :: _ =>
          { success := true
            analysis := some choice.message.content
            tokens_used := some resp.usage.total_tokens
            error := none }

/-- `analyze_multiple_images`.  Credential check first (outside the
`try:`); inside the `try:` the content array is built as the text block
followed by one image block per source, and one request with
`max_tokens = 1500` is sent. -/
def analyze_multiple_images (env : Env) (fs : FS) (tr : Transport)
    (image_sources : List String) (prompt : String) : Except String AnalysisResult :=
  if !truthy (env "OPENAI_API_KEY") then
    .error "OPENAI_API_KEY environment variable not set"
  else
    .ok (match buildContentList fs image_sources with
      | .error e => failureResult e
      | .ok blocks =>
          multiResponseResult (tr
            { model := "gpt-4o"
              content := ContentBlock.text prompt :: blocks
              max_tokens := 1500 }))

/-! ### Concrete environments, filesystems and transports for evaluation -/

/-- Environment with no variables set. -/
def envEmpty : Env := fun _ => none

/-- Environment with every variable set to the non-empty value `k`. -/
def envWithKey : Env := fun _ => some "k"

/-- Empty filesystem: no path resolves to a file. -/
def fsEmpty : FS := fun _ => none

/-- Filesystem holding one two-byte PNG-ish file at `img.png`. -/
def fsSample : FS := fun p => if p = "img.png" then some [137, 80] else none

/-- Transport that always raises with message `boom`. -/
def trError : Transport := fun _ => .error "boom"

/-- A fixed successful response with one choice. -/
def respSample : Response :=
  { id := "resp-1"
    model := "gpt-4o"
    created := 5
    choices := [{ index := 0
                  message := { role := "assistant", content := "a boardwalk" }
                  finish_reason := "stop" }]
    usage := { prompt_tokens := 10, completion_tokens := 7, total_tokens := 17 } }

/-- Transport that always returns `respSample`. -/
def trOk : Transport := fun _ => .ok respSample

/-! ### Supporting lemmas -/

/-- Six-bit groups map into the alphabet, never to the padding character,
and `b64val` inverts `b64c` on them. -/
theorem b64c_inv : ∀ n, n < 64 → b64val (b64c n) = n ∧ b64c n ≠ '=' := by decide

/-- Base64 decoding inverts base64 encoding on byte lists. -/
theorem base64_roundtrip (l : List Nat) (hl : ∀ b ∈ l, b < 256) :
    base64Decode (base64EncodeChars l) = l := by
  induction l using base64EncodeChars.induct with
  | case1 => rfl
  | case2 a =>
      have ha : a < 256 := hl a (by simp)
      have h1 := b64c_inv (a / 4) (by omega)
      have h2 := b64c_inv (a % 4 * 16) (by omega)
      simp only [base64EncodeChars, base64Decode, if_pos rfl, h1.1, h2.1]
      simp
      omega
  | case3 a b =>
      have ha : a < 256 := hl a (by simp)
      have hb : b < 256 := hl b (by simp)
      have h1 := b64c_inv (a / 4) (by omega)
      have h2 := b64c_inv (a % 4 * 16 + b / 16) (by omega)
      have h3 := b64c_inv (b % 16 * 4) (by omega)
      simp only [base64EncodeChars, base64Decode, if_neg h3.2, if_pos rfl, h1.1, h2.1, h3.1]
      simp
      constructor
      · omega
      · omega
  | case4 a b c rest ih =>
      have ha : a < 256 := hl a (by simp)
      have hb : b < 256 := hl b (by simp)
      have hc : c < 256 := hl c (by simp)
      have h1 := b64c_inv (a / 4) (by omega)
      have h2 := b64c_inv (a % 4 * 16 + b / 16) (by omega)
      have h3 := b64c_inv (b % 16 * 4 + c / 64) (by omega)
      have h4 := b64c_inv (c % 64) (by omega)
      have ihr : base64Decode (base64EncodeChars rest) = rest := by
        refine ih (fun x hx => hl x ?_)
        simp [hx]
      simp only [base64EncodeChars, base64Decode, if_neg h3.2, if_neg h4.2,
        h1.1, h2.1, h3.1, h4.1, ihr]
      have e1 : a / 4 * 4 + (a % 4 * 16 + b / 16) / 16 = a := by omega
      have e2 : (a % 4 * 16 + b / 16) % 16 * 16 + (b % 16 * 4 + c / 64) / 4 = b := by omega
      have e3 : (b % 16 * 4 + c / 64) % 4 * 64 + c % 64 = c := by omega
      rw [e1, e2, e3]

/-- The file-not-found message is never the empty string. -/
theorem fileNotFoundMsg_ne (p : String) : "Image file not found: " ++ p ≠ "" := by
  intro h
  have h2 := congrArg String.data h
  simp [String.data_append] at h2

/-- `encode_image_to_base64` only raises non-empty messages. -/
theorem encode_error_ne (fs : FS) (p e : String)
    (h : encode_image_to_base64 fs p = .error e) : e ≠ "" := by
  unfold encode_image_to_base64 at h
  cases hf : fs p with
  | none =>
      rw [hf] at h
      cases h
      exact fileNotFoundMsg_ne p
  | some bytes => rw [hf] at h; cases h

/-- The loop body only raises non-empty messages. -/
theorem buildOneContent_error_ne (fs : FS) (s e : String)
    (h : buildOneContent fs s = .error e) : e ≠ "" := by
  unfold buildOneContent at h
  split at h
  · cases h
  · cases he : encode_image_to_base64 fs s with
    | error msg =>
        rw [he] at h
        cases h
        exact encode_error_ne fs s e he
    | ok b => rw [he] at h; cases h

/-- The content-building loop only raises non-empty messages. -/
theorem buildContentList_error_ne (fs : FS) (e : String) :
    ∀ sources : List String, buildContentList fs sources = .error e → e ≠ "" := by
  intro sources
  induction sources with
  | nil => intro h; cases h
  | cons s rest ih =>
      intro h
      unfold buildContentList at h
      cases hb : buildOneContent fs s with
      | error msg =>
          rw [hb] at h
          cases h
          exact buildOneContent_error_ne fs s e hb
      | ok b =>
          rw [hb] at h
          cases hr : buildContentList fs rest with
          | error msg => rw [hr] at h; cases h; exact ih hr
          | ok bs => rw [hr] at h; cases h

/-- Every block built by the loop body is an image block with the
`detail` key absent. -/
theorem buildOneContent_shape (fs : FS) (s : String) (b : ContentBlock)
    (h : buildOneContent fs s = .ok b) : ∃ u, b = ContentBlock.imageUrl u none := by
  unfold buildOneContent at h
  split at h
  · cases h
    exact ⟨s, rfl⟩
  · cases he : encode_image_to_base64 fs s with
    | error msg => rw [he] at h; cases h
    | ok b64 =>
        rw [he] at h
        cases h
        exact ⟨_, rfl⟩

/-- A successfully built content list has one block per source, each an
image block with the `detail` key absent. -/
theorem buildContentList_shape (fs : FS) :
    ∀ (sources : List String) (blocks : List ContentBlock),
      buildContentList fs sources = .ok blocks →
      blocks.length = sources.length ∧
        ∀ b ∈ blocks, ∃ u, b = ContentBlock.imageUrl u none := by
  intro sources
  induction sources with
  | nil =>
      intro blocks h
      cases h
      exact ⟨rfl, by simp⟩
  | cons s rest ih =>
      intro blocks h
      unfold buildContentList at h
      cases hb : buildOneContent fs s with
      | error msg => rw [hb] at h; cases h
      | ok b =>
          rw [hb] at h
          cases hr : buildContentList fs rest with
          | error msg => rw [hr] at h; cases h
          | ok bs =>
              rw [hr] at h
              cases h
              obtain ⟨hlen, hall⟩ := ih bs hr
              refine ⟨by simp [hlen], ?_⟩
              intro x hx
              rcases List.mem_cons.mp hx with hx | hx
              · subst hx; exact buildOneContent_shape fs s x hb
              · exact hall x hx

/-- A URL-scheme source becomes a verbatim URL block with no detail. -/
theorem buildOneContent_url (fs : FS) (source : String)
    (hu : source.toList.take 7 = "http://".toList ∨
          source.toList.take 8 = "https://".toList) :
    buildOneContent fs source = .ok (ContentBlock.imageUrl source none) := by
  unfold buildOneContent
  rw [if_pos hu]

/-- A non-URL source that resolves to no file raises file-not-found. -/
theorem buildOneContent_missing (fs : FS) (source : String)
    (hu : ¬ (source.toList.take 7 = "http://".toList ∨
             source.toList.take 8 = "https://".toList))
    (hf : fs source = none) :
    buildOneContent fs source = .error ("Image file not found: " ++ source) := by
  unfold buildOneContent
  rw [if_neg hu]
  simp [encode_image_to_base64, hf]

/-- A non-URL source that resolves to a file becomes an inline data-URI
block with no detail. -/
theorem buildOneContent_inline (fs : FS) (source : String) (bytes : List Nat)
    (hu : ¬ (source.toList.take 7 = "http://".toList ∨
             source.toList.take 8 = "https://".toList))
    (hf : fs source = some bytes) :
    buildOneContent fs source
      = .ok (ContentBlock.imageUrl
          ("data:" ++ mimeTypeFor source ++ ";base64," ++ base64Encode bytes) none) := by
  unfold buildOneContent
  rw [if_neg hu]
  simp [encode_image_to_base64, hf]

/-- An operation outcome that is a normally returned failure record with a
non-empty error message (no exception escaping). -/
def returnsCleanFailure (res : Except String AnalysisResult) : Prop :=
  ∃ r, res = Except.ok r ∧ r.success = false ∧ ∃ e, r.error = some e ∧ e ≠ ""

/-- An outcome equal to a failure record with non-empty message is clean. -/
theorem failure_clean (res : Except String AnalysisResult) (msg : String)
    (h : res = Except.ok (failureResult msg)) (hne : msg ≠ "") :
    returnsCleanFailure res :=
  ⟨failureResult msg, h, rfl, msg, rfl, hne⟩

/-! ### Claims -/

/-- C1, counterexample: with the credential unset, `analyze_image_from_url`
does not return a `success = false` record — the `ValueError` raised by the
credential check sits before the `try:` block and propagates to the caller,
so the claim that no exception ever escapes the operation boundary is false
for the unset-credential failure. -/
theorem C1_counterexample :
    analyze_image_from_url envEmpty trError
        "http://example.com/a.png" "What is in this image?" "auto"
      = Except.error "OPENAI_API_KEY environment variable not set" := rfl

/-- C1, amended: for a nonexistent local path or a transport error raised
by the remote call (with a non-empty message), each of the three analysis
operations returns a record with `success = false` and a non-empty error
string, letting no exception escape — for `analyze_image_from_file` both
failure kinds are covered, a missing file under any transport and a
failing transport under a readable file; but an unset (or empty)
credential makes all three operations raise a `ValueError` that
propagates to the caller instead of being converted into a result
record. -/
theorem C1_boundary (env env2 : Env) (fs : FS) (tr tr2 : Transport)
    (emsg url path path2 prompt detail : String) (bytes : List Nat)
    (sources : List String)
    (henv : truthy (env "OPENAI_API_KEY") = true)
    (henv2 : truthy (env2 "OPENAI_API_KEY") = false)
    (hmsg : emsg ≠ "")
    (htr : ∀ q, tr q = Except.error emsg)
    (hpath : fs path = none)
    (hpath2 : fs path2 = some bytes) :
    returnsCleanFailure (analyze_image_from_url env tr url prompt detail)
  ∧ returnsCleanFailure (analyze_image_from_file env fs tr path prompt detail)
  ∧ returnsCleanFailure (analyze_image_from_file env fs tr path2 prompt detail)
  ∧ returnsCleanFailure (analyze_multiple_images env fs tr sources prompt)
  ∧ returnsCleanFailure (analyze_image_from_file env fs tr2 path prompt detail)
  ∧ analyze_image_from_url env2 tr url prompt detail
      = Except.error "OPENAI_API_KEY environment variable not set"
  ∧ analyze_image_from_file env2 fs tr path prompt detail
      = Except.error "OPENAI_API_KEY environment variable not set"
  ∧ analyze_multiple_images env2 fs tr sources prompt
      = Except.error "OPENAI_API_KEY environment variable not set" := by
  refine ⟨?_, ?_, ?_, ?_, ?_, ?_, ?_, ?_⟩
  · refine failure_clean _ emsg ?_ hmsg
    simp [analyze_image_from_url, henv, htr, singleResponseResult]
  · refine failure_clean _ ("Image file not found: " ++ path) ?_ (fileNotFoundMsg_ne path)
    simp [analyze_image_from_file, henv, encode_image_to_base64, hpath]
  · refine failure_clean _ emsg ?_ hmsg
    simp [analyze_image_from_file, henv, encode_image_to_base64, hpath2, htr,
      singleResponseResult]
  · cases hb : buildContentList fs sources with
    | error e =>
        refine failure_clean _ e ?_ (buildContentList_error_ne fs e sources hb)
        simp [analyze_multiple_images, henv, hb]
    | ok blocks =>
        refine failure_clean _ emsg ?_ hmsg
        simp [analyze_multiple_images, henv, hb, htr, multiResponseResult]
  · refine failure_clean _ ("Image file not found: " ++ path) ?_ (fileNotFoundMsg_ne path)
    simp [analyze_image_from_file, henv, encode_image_to_base64, hpath]
  · simp [analyze_image_from_url, henv2]
  · simp [analyze_image_from_file, henv2]
  · simp [analyze_multiple_images, henv2]

/-- C1, witness at concrete inputs: `missing.png` is absent from
`fsSample` while `img.png` is readable there, so both file-operation
failure kinds are exercised. -/
theorem C1_boundary_witness :
    returnsCleanFailure (analyze_image_from_url envWithKey trError
        "http://example.com/a.png" "Describe" "auto")
  ∧ returnsCleanFailure (analyze_image_from_file envWithKey fsSample trError
        "missing.png" "Describe" "auto")
  ∧ returnsCleanFailure (analyze_image_from_file envWithKey fsSample trError
        "img.png" "Describe" "auto")
  ∧ returnsCleanFailure (analyze_multiple_images envWithKey fsSample trError
        ["missing.png"] "Compare")
  ∧ returnsCleanFailure (analyze_image_from_file envWithKey fsSample trOk
        "missing.png" "Describe" "auto")
  ∧ analyze_image_from_url envEmpty trError "http://example.com/a.png" "Describe" "auto"
      = Except.error "OPENAI_API_KEY environment variable not set"
  ∧ analyze_image_from_file envEmpty fsSample trError "missing.png" "Describe" "auto"
      = Except.error "OPENAI_API_KEY environment variable not set"
  ∧ analyze_multiple_images envEmpty fsSample trError ["missing.png"] "Compare"
      = Except.error "OPENAI_API_KEY environment variable not set" :=
  C1_boundary envWithKey envEmpty fsSample trError trOk
    "boom" "http://example.com/a.png" "missing.png" "img.png" "Describe" "auto"
    [137, 80] ["missing.png"]
    (by decide) (by decide) (by decide) (fun _ => rfl) (by decide) rfl

/-- C2, counterexample: with no credential configured,
`analyze_image_from_file` does not return a record at all — the raised
`ValueError` escapes to the caller, so the claim that it returns
`success = false` is false. -/
theorem C2_counterexample :
    analyze_image_from_file envEmpty fsEmpty trOk "sentinel.png" "Describe" "auto"
      = Except.error "OPENAI_API_KEY environment variable not set" := rfl

/-- C2, amended: with no credential configured (unset or empty),
`analyze_image_from_file` raises a `ValueError` that propagates to the
caller rather than returning a `success = false` record; the credential
check does run before any file I/O — for every path the outcome is
identical under every filesystem and every transport, so no file read is
attempted. -/
theorem C2_credentialFirst (env : Env) (fs fs2 : FS) (tr tr2 : Transport)
    (path prompt detail : String)
    (henv : truthy (env "OPENAI_API_KEY") = false) :
    analyze_image_from_file env fs tr path prompt detail
      = Except.error "OPENAI_API_KEY environment variable not set"
  ∧ analyze_image_from_file env fs tr path prompt detail
      = analyze_image_from_file env fs2 tr2 path prompt detail := by
  constructor
  · simp [analyze_image_from_file, henv]
  · simp [analyze_image_from_file, henv]

/-- C2, witness: a sentinel path that resolves in one filesystem and not
in the other gives the same raised error either way. -/
theorem C2_credentialFirst_witness :
    analyze_image_from_file envEmpty fsSample trOk "img.png" "Describe" "auto"
      = Except.error "OPENAI_API_KEY environment variable not set"
  ∧ analyze_image_from_file envEmpty fsSample trOk "img.png" "Describe" "auto"
      = analyze_image_from_file envEmpty fsEmpty trError "img.png" "Describe" "auto" :=
  C2_credentialFirst envEmpty fsSample fsEmpty trOk trError
    "img.png" "Describe" "auto" (by decide)

/-- C3: for every readable local file, the inline image reference placed
in the request is exactly `"data:" ++ mediaType ++ ";base64," ++ data`,
where `data` is the standard-alphabet, unwrapped base64 encoding of the
file's full binary contents read in one read (the encoding is genuinely
invertible base64: decoding it gives back the bytes). -/
theorem C3_dataUri (env : Env) (fs : FS) (tr : Transport)
    (path prompt detail : String) (bytes : List Nat)
    (henv : truthy (env "OPENAI_API_KEY") = true)
    (hfile : fs path = some bytes)
    (hbytes : ∀ b ∈ bytes, b < 256) :
    analyze_image_from_file env fs tr path prompt detail
      = Except.ok (singleResponseResult (tr
          { model := "gpt-4o"
            content := [ContentBlock.text prompt,
                        ContentBlock.imageUrl
                          ("data:" ++ mimeTypeFor path ++ ";base64," ++ base64Encode bytes)
                          (some detail)]
            max_tokens := 1000 }))
  ∧ base64Decode (base64EncodeChars bytes) = bytes := by
  constructor
  · simp [analyze_image_from_file, henv, encode_image_to_base64, hfile]
  · exact base64_roundtrip bytes hbytes

/-- C3, witness: a two-byte file at `img.png`. -/
theorem C3_dataUri_witness :
    analyze_image_from_file envWithKey fsSample trOk "img.png" "Describe" "auto"
      = Except.ok (singleResponseResult (trOk
          { model := "gpt-4o"
            content := [ContentBlock.text "Describe",
                        ContentBlock.imageUrl
                          ("data:" ++ mimeTypeFor "img.png" ++ ";base64," ++
                            base64Encode [137, 80])
                          (some "auto")]
            max_tokens := 1000 }))
  ∧ base64Decode (base64EncodeChars [137, 80]) = [137, 80] :=
  C3_dataUri envWithKey fsSample trOk "img.png" "Describe" "auto" [137, 80]
    (by decide) rfl (by decide)

/-- C4: in `analyze_multiple_images`, a source starting with the literal,
case-sensitive `http://` or `https://` becomes an image block carrying
that URL string unchanged; every other source string is read as a local
file path — if the filesystem has no file there the operation fails with
the file-not-found message, and if it does the block is an inline data
URI built from the file's bytes. -/
theorem C4_sourceRouting (env : Env) (fs : FS) (tr : Transport)
    (prompt source : String) (bytes : List Nat)
    (henv : truthy (env "OPENAI_API_KEY") = true) :
    (source.toList.take 7 = "http://".toList ∨ source.toList.take 8 = "https://".toList →
      analyze_multiple_images env fs tr [source] prompt
        = Except.ok (multiResponseResult (tr
            { model := "gpt-4o"
              content := [ContentBlock.text prompt, ContentBlock.imageUrl source none]
              max_tokens := 1500 })))
  ∧ (¬ (source.toList.take 7 = "http://".toList ∨
        source.toList.take 8 = "https://".toList) →
      fs source = none →
      analyze_multiple_images env fs tr [source] prompt
        = Except.ok (failureResult ("Image file not found: " ++ source)))
  ∧ (¬ (source.toList.take 7 = "http://".toList ∨
        source.toList.take 8 = "https://".toList) →
      fs source = some bytes →
      analyze_multiple_images env fs tr [source] prompt
        = Except.ok (multiResponseResult (tr
            { model := "gpt-4o"
              content := [ContentBlock.text prompt,
                          ContentBlock.imageUrl
                            ("data:" ++ mimeTypeFor source ++ ";base64," ++
                              base64Encode bytes) none]
              max_tokens := 1500 }))) := by
  refine ⟨?_, ?_, ?_⟩
  · intro hu
    simp [analyze_multiple_images, henv, buildContentList, buildOneContent_url fs source hu]
  · intro hu hf
    simp [analyze_multiple_images, henv, buildContentList,
      buildOneContent_missing fs source hu hf]
  · intro hu hf
    simp [analyze_multiple_images, henv, buildContentList,
      buildOneContent_inline fs source bytes hu hf]

/-- C4, witness: a lowercase `https://` URL passes through verbatim,
while an uppercase-scheme `HTTP://` string is treated as a local path and
triggers a file read (which fails on the empty filesystem). -/
theorem C4_sourceRouting_witness :
    analyze_multiple_images envWithKey fsEmpty trOk ["https://x/b.jpg"] "Compare"
      = Except.ok (multiResponseResult (trOk
          { model := "gpt-4o"
            content := [ContentBlock.text "Compare",
                        ContentBlock.imageUrl "https://x/b.jpg" none]
            max_tokens := 1500 }))
  ∧ analyze_multiple_images envWithKey fsEmpty trOk ["HTTP://X/a.png"] "Compare"
      = Except.ok (failureResult ("Image file not found: " ++ "HTTP://X/a.png")) :=
  ⟨(C4_sourceRouting envWithKey fsEmpty trOk "Compare" "https://x/b.jpg" []
      (by decide)).1 (by decide),
   (C4_sourceRouting envWithKey fsEmpty trOk "Compare" "HTTP://X/a.png" []
      (by decide)).2.1 (by decide) rfl⟩

/-- C5: the media-type selection is total and depends only on the
lowercased extension: each of `.jpg/.jpeg/.png/.gif/.webp` (in any letter
case, hence stated through `asciiLower`) maps to its table entry, and any
other or missing extension falls back to `image/jpeg`. -/
theorem C5_mediaType (p : String) :
    (asciiLower (pathSuffix p) = ".jpg" → mimeTypeFor p = "image/jpeg")
  ∧ (asciiLower (pathSuffix p) = ".jpeg" → mimeTypeFor p = "image/jpeg")
  ∧ (asciiLower (pathSuffix p) = ".png" → mimeTypeFor p = "image/png")
  ∧ (asciiLower (pathSuffix p) = ".gif" → mimeTypeFor p = "image/gif")
  ∧ (asciiLower (pathSuffix p) = ".webp" → mimeTypeFor p = "image/webp")
  ∧ (asciiLower (pathSuffix p) ≠ ".jpg" → asciiLower (pathSuffix p) ≠ ".jpeg" →
     asciiLower (pathSuffix p) ≠ ".png" → asciiLower (pathSuffix p) ≠ ".gif" →
     asciiLower (pathSuffix p) ≠ ".webp" → mimeTypeFor p = "image/jpeg")
  ∧ (∀ q : String, asciiLower (pathSuffix p) = asciiLower (pathSuffix q) →
       mimeTypeFor p = mimeTypeFor q) := by
  refine ⟨?_, ?_, ?_, ?_, ?_, ?_, ?_⟩
  · intro h; unfold mimeTypeFor; rw [h]; decide
  · intro h; unfold mimeTypeFor; rw [h]; decide
  · intro h; unfold mimeTypeFor; rw [h]; decide
  · intro h; unfold mimeTypeFor; rw [h]; decide
  · intro h; unfold mimeTypeFor; rw [h]; decide
  · intro h1 h2 h3 h4 h5
    have b1 := beq_eq_false_iff_ne.mpr h1
    have b2 := beq_eq_false_iff_ne.mpr h2
    have b3 := beq_eq_false_iff_ne.mpr h3
    have b4 := beq_eq_false_iff_ne.mpr h4
    have b5 := beq_eq_false_iff_ne.mpr h5
    simp [mimeTypeFor, mimeTable, List.lookup, b1, b2, b3, b4, b5]
  · intro q h
    simp [mimeTypeFor, h]

/-- C5, witness: mixed-case extensions hit their table row, an unknown
extension and a missing extension fall back, and two case variants of the
same extension agree. -/
theorem C5_mediaType_witness :
    (asciiLower (pathSuffix "photo.PnG") = ".png"
      ∧ mimeTypeFor "photo.PnG" = "image/png")
  ∧ (asciiLower (pathSuffix "anim.WEBP") = ".webp"
      ∧ mimeTypeFor "anim.WEBP" = "image/webp")
  ∧ mimeTypeFor "scan.tiff" = "image/jpeg"
  ∧ mimeTypeFor "noext" = "image/jpeg"
  ∧ mimeTypeFor "a.GIF" = mimeTypeFor "b.gif" :=
  ⟨⟨by decide, (C5_mediaType "photo.PnG").2.2.1 (by decide)⟩,
   ⟨by decide, (C5_mediaType "anim.WEBP").2.2.2.2.1 (by decide)⟩,
   (C5_mediaType "scan.tiff").2.2.2.2.2.1
     (by decide) (by decide) (by decide) (by decide) (by decide),
   (C5_mediaType "noext").2.2.2.2.2.1
     (by decide) (by decide) (by decide) (by decide) (by decide),
   (C5_mediaType "a.GIF").2.2.2.2.2.2 "b.gif" (by decide)⟩

/-- The field-gating invariant of result records: on success the error
key is absent and the analysis is present; on failure the error key is
present and every success-branch key is absent. -/
def resultWellFormed (r : AnalysisResult) : Prop :=
  (r.success = true → r.error = none ∧ r.analysis.isSome = true)
  ∧ (r.success = false →
      r.error.isSome = true ∧ r.analysis = none ∧ r.model = none ∧
      r.tokens_used = none ∧ r.prompt_tokens = none ∧ r.completion_tokens = none)

/-- Single-image normalization always yields a well-formed record. -/
theorem singleResponseResult_wf (res : Except String Response) :
    resultWellFormed (singleResponseResult res) := by
  cases res with
  | error e => simp [singleResponseResult, failureResult, resultWellFormed]
  | ok resp =>
      cases hc : resp.choices with
      | nil => simp [singleResponseResult, hc, failureResult, resultWellFormed]
      | cons choice rest => simp [singleResponseResult, hc, resultWellFormed]

/-- Multi-image normalization always yields a well-formed record. -/
theorem multiResponseResult_wf (res : Except String Response) :
    resultWellFormed (multiResponseResult res) := by
  cases res with
  | error e => simp [multiResponseResult, failureResult, resultWellFormed]
  | ok resp =>
      cases hc : resp.choices with
      | nil => simp [multiResponseResult, hc, failureResult, resultWellFormed]
      | cons choice rest => simp [multiResponseResult, hc, resultWellFormed]

/-- Every record returned by `analyze_image_from_url` is a single-image
normalization of some transport outcome. -/
theorem analyze_url_ok_form (env : Env) (tr : Transport)
    (url prompt detail : String) (r : AnalysisResult)
    (h : analyze_image_from_url env tr url prompt detail = Except.ok r) :
    ∃ res, r = singleResponseResult res := by
  unfold analyze_image_from_url at h
  split at h
  · cases h
  · injection h with h2
    exact ⟨_, h2.symm⟩

/-- Every record returned by `analyze_image_from_file` is a single-image
normalization of some outcome (a raised file error is the normalization of
an error outcome). -/
theorem analyze_file_ok_form (env : Env) (fs : FS) (tr : Transport)
    (path prompt detail : String) (r : AnalysisResult)
    (h : analyze_image_from_file env fs tr path prompt detail = Except.ok r) :
    ∃ res, r = singleResponseResult res := by
  unfold analyze_image_from_file at h
  split at h
  · cases h
  · cases he : encode_image_to_base64 fs path with
    | error e =>
        rw [he] at h
        injection h with h2
        exact ⟨Except.error e, h2.symm⟩
    | ok b64 =>
        rw [he] at h
        injection h with h2
        exact ⟨_, h2.symm⟩

/-- Every record returned by `analyze_multiple_images` is a multi-image
normalization of some outcome. -/
theorem analyze_multi_ok_form (env : Env) (fs : FS) (tr : Transport)
    (sources : List String) (prompt : String) (r : AnalysisResult)
    (h : analyze_multiple_images env fs tr sources prompt = Except.ok r) :
    ∃ res, r = multiResponseResult res := by
  unfold analyze_multiple_images at h
  split at h
  · cases h
  · cases hb : buildContentList fs sources with
    | error e =>
        rw [hb] at h
        injection h with h2
        exact ⟨Except.error e, h2.symm⟩
    | ok blocks =>
        rw [hb] at h
        injection h with h2
        exact ⟨_, h2.symm⟩

/-- A successful single-image record exposes the first choice's content. -/
theorem singleResponseResult_success_src (res : Except String Response)
    (r : AnalysisResult) (h : singleResponseResult res = r) (hs : r.success = true) :
    ∃ resp choice rest, res = Except.ok resp ∧ resp.choices = choice :: rest ∧
      r.analysis = some choice.message.content := by
  cases res with
  | error e => rw [← h] at hs; simp [singleResponseResult, failureResult] at hs
  | ok resp =>
      cases hc : resp.choices with
      | nil =>
          rw [← h] at hs
          simp [singleResponseResult, hc, failureResult] at hs
      | cons choice rest =>
          refine ⟨resp, choice, rest, rfl, hc, ?_⟩
          rw [← h]
          simp [singleResponseResult, hc]

/-- A successful multi-image record exposes the first choice's content. -/
theorem multiResponseResult_success_src (res : Except String Response)
    (r : AnalysisResult) (h : multiResponseResult res = r) (hs : r.success = true) :
    ∃ resp choice rest, res = Except.ok resp ∧ resp.choices = choice :: rest ∧
      r.analysis = some choice.message.content := by
  cases res with
  | error e => rw [← h] at hs; simp [multiResponseResult, failureResult] at hs
  | ok resp =>
      cases hc : resp.choices with
      | nil =>
          rw [← h] at hs
          simp [multiResponseResult, hc, failureResult] at hs
      | cons choice rest =>
          refine ⟨resp, choice, rest, rfl, hc, ?_⟩
          rw [← h]
          simp [multiResponseResult, hc]

/-- C6: the multi-image request content is the prompt text block followed
by one image block per source in order (length `n + 1`), each omitting the
detail field entirely, while both single-image requests set the detail
field explicitly on their image block. -/
theorem C6_contentShape (env : Env) (fs : FS) (tr : Transport)
    (url path prompt detail : String) (bytes : List Nat)
    (sources : List String) (blocks : List ContentBlock)
    (henv : truthy (env "OPENAI_API_KEY") = true)
    (hfile : fs path = some bytes)
    (hblocks : buildContentList fs sources = Except.ok blocks) :
    analyze_multiple_images env fs tr sources prompt
      = Except.ok (multiResponseResult (tr
          { model := "gpt-4o"
            content := ContentBlock.text prompt :: blocks
            max_tokens := 1500 }))
  ∧ (ContentBlock.text prompt :: blocks).length = sources.length + 1
  ∧ (∀ b ∈ blocks, ∃ u, b = ContentBlock.imageUrl u none)
  ∧ analyze_image_from_url env tr url prompt detail
      = Except.ok (singleResponseResult (tr
          { model := "gpt-4o"
            content := [ContentBlock.text prompt,
                        ContentBlock.imageUrl url (some detail)]
            max_tokens := 1000 }))
  ∧ analyze_image_from_file env fs tr path prompt detail
      = Except.ok (singleResponseResult (tr
          { model := "gpt-4o"
            content := [ContentBlock.text prompt,
                        ContentBlock.imageUrl
                          ("data:" ++ mimeTypeFor path ++ ";base64," ++ base64Encode bytes)
                          (some detail)]
            max_tokens := 1000 })) := by
  obtain ⟨hlen, hall⟩ := buildContentList_shape fs sources blocks hblocks
  refine ⟨?_, ?_, hall, ?_, ?_⟩
  · simp [analyze_multiple_images, henv, hblocks]
  · simp [hlen]
  · simp [analyze_image_from_url, henv]
  · simp [analyze_image_from_file, henv, encode_image_to_base64, hfile]

/-- C6, witness: two sources (one local file, one URL) give a content
list of length 3 with detail absent on both image blocks. -/
theorem C6_contentShape_witness :
    analyze_multiple_images envWithKey fsSample trOk ["img.png", "https://x/b.jpg"] "Compare"
      = Except.ok (multiResponseResult (trOk
          { model := "gpt-4o"
            content := ContentBlock.text "Compare" ::
              [ContentBlock.imageUrl
                 ("data:" ++ mimeTypeFor "img.png" ++ ";base64," ++ base64Encode [137, 80]) none,
               ContentBlock.imageUrl "https://x/b.jpg" none]
            max_tokens := 1500 }))
  ∧ (ContentBlock.text "Compare" ::
       [ContentBlock.imageUrl
          ("data:" ++ mimeTypeFor "img.png" ++ ";base64," ++ base64Encode [137, 80]) none,
        ContentBlock.imageUrl "https://x/b.jpg" none]).length
      = (["img.png", "https://x/b.jpg"] : List String).length + 1
  ∧ (∀ b ∈ [ContentBlock.imageUrl
               ("data:" ++ mimeTypeFor "img.png" ++ ";base64," ++ base64Encode [137, 80]) none,
             ContentBlock.imageUrl "https://x/b.jpg" none],
       ∃ u, b = ContentBlock.imageUrl u none)
  ∧ analyze_image_from_url envWithKey trOk "https://x/b.jpg" "Compare" "high"
      = Except.ok (singleResponseResult (trOk
          { model := "gpt-4o"
            content := [ContentBlock.text "Compare",
                        ContentBlock.imageUrl "https://x/b.jpg" (some "high")]
            max_tokens := 1000 }))
  ∧ analyze_image_from_file envWithKey fsSample trOk "img.png" "Compare" "high"
      = Except.ok (singleResponseResult (trOk
          { model := "gpt-4o"
            content := [ContentBlock.text "Compare",
                        ContentBlock.imageUrl
                          ("data:" ++ mimeTypeFor "img.png" ++ ";base64," ++
                            base64Encode [137, 80])
                          (some "high")]
            max_tokens := 1000 })) :=
  C6_contentShape envWithKey fsSample trOk "https://x/b.jpg" "img.png" "Compare" "high"
    [137, 80] ["img.png", "https://x/b.jpg"]
    [ContentBlock.imageUrl
       ("data:" ++ mimeTypeFor "img.png" ++ ";base64," ++ base64Encode [137, 80]) none,
     ContentBlock.imageUrl "https://x/b.jpg" none]
    (by decide) rfl rfl

/-- C7: every record returned by the three operations is well formed
(success populates analysis and leaves error absent; failure populates
error and leaves every success-branch field absent), and a successful
record's analysis is exactly the first response choice's message content. -/
theorem C7_resultGating (env : Env) (fs : FS) (tr : Transport)
    (url path prompt detail : String) (sources : List String) (r : AnalysisResult) :
    (analyze_image_from_url env tr url prompt detail = Except.ok r → resultWellFormed r)
  ∧ (analyze_image_from_file env fs tr path prompt detail = Except.ok r → resultWellFormed r)
  ∧ (analyze_multiple_images env fs tr sources prompt = Except.ok r → resultWellFormed r)
  ∧ (∀ res, singleResponseResult res = r → r.success = true →
       ∃ resp choice rest, res = Except.ok resp ∧ resp.choices = choice :: rest ∧
         r.analysis = some choice.message.content)
  ∧ (∀ res, multiResponseResult res = r → r.success = true →
       ∃ resp choice rest, res = Except.ok resp ∧ resp.choices = choice :: rest ∧
         r.analysis = some choice.message.content) := by
  refine ⟨?_, ?_, ?_, ?_, ?_⟩
  · intro h
    obtain ⟨res, hr⟩ := analyze_url_ok_form env tr url prompt detail r h
    rw [hr]
    exact singleResponseResult_wf res
  · intro h
    obtain ⟨res, hr⟩ := analyze_file_ok_form env fs tr path prompt detail r h
    rw [hr]
    exact singleResponseResult_wf res
  · intro h
    obtain ⟨res, hr⟩ := analyze_multi_ok_form env fs tr sources prompt r h
    rw [hr]
    exact multiResponseResult_wf res
  · intro res h hs
    exact singleResponseResult_success_src res r h hs
  · intro res h hs
    exact multiResponseResult_success_src res r h hs

/-- The concrete record `analyze_image_from_url` returns under `trOk`. -/
def okUrlResult : AnalysisResult :=
  { success := true
    analysis := some "a boardwalk"
    model := some "gpt-4o"
    tokens_used := some 17
    prompt_tokens := some 10
    completion_tokens := some 7
    error := none }

/-- C7, witness: the record returned for the sample response is well
formed and its analysis is the first choice's content. -/
theorem C7_resultGating_witness :
    resultWellFormed okUrlResult
  ∧ (∃ resp choice rest,
       (Except.ok respSample : Except String Response) = Except.ok resp ∧
       resp.choices = choice :: rest ∧
       okUrlResult.analysis = some choice.message.content) :=
  ⟨(C7_resultGating envWithKey fsEmpty trOk
      "http://example.com/a.png" "img.png" "Describe" "auto" [] okUrlResult).1 rfl,
   (C7_resultGating envWithKey fsEmpty trOk
      "http://example.com/a.png" "img.png" "Describe" "auto" [] okUrlResult).2.2.2.1
     (Except.ok respSample) rfl rfl⟩

/-- C8: every request a single-image operation hands to the transport has
`max_tokens = 1000`, and every request the multi-image operation hands to
the transport has `max_tokens = 1500`, for all values of every operation
parameter (the ceilings are fixed constants, configurable by nothing). -/
theorem C8_tokenCeiling (env : Env) (fs : FS) (tr : Transport)
    (url path prompt detail : String) (bytes : List Nat)
    (sources : List String) (blocks : List ContentBlock)
    (henv : truthy (env "OPENAI_API_KEY") = true)
    (hfile : fs path = some bytes)
    (hblocks : buildContentList fs sources = Except.ok blocks) :
    (∃ q : Request, q.max_tokens = 1000 ∧
       analyze_image_from_url env tr url prompt detail
         = Except.ok (singleResponseResult (tr q)))
  ∧ (∃ q : Request, q.max_tokens = 1000 ∧
       analyze_image_from_file env fs tr path prompt detail
         = Except.ok (singleResponseResult (tr q)))
  ∧ (∃ q : Request, q.max_tokens = 1500 ∧
       analyze_multiple_images env fs tr sources prompt
         = Except.ok (multiResponseResult (tr q))) := by
  refine
    ⟨⟨{ model := "gpt-4o"
        content := [ContentBlock.text prompt, ContentBlock.imageUrl url (some detail)]
        max_tokens := 1000 }, rfl, ?_⟩,
     ⟨{ model := "gpt-4o"
        content := [ContentBlock.text prompt,
                    ContentBlock.imageUrl
                      ("data:" ++ mimeTypeFor path ++ ";base64," ++ base64Encode bytes)
                      (some detail)]
        max_tokens := 1000 }, rfl, ?_⟩,
     ⟨{ model := "gpt-4o"
        content := ContentBlock.text prompt :: blocks
        max_tokens := 1500 }, rfl, ?_⟩⟩
  · simp [analyze_image_from_url, henv]
  · simp [analyze_image_from_file, henv, encode_image_to_base64, hfile]
  · simp [analyze_multiple_images, henv, hblocks]

/-- C8, witness. -/
theorem C8_tokenCeiling_witness :
    (∃ q : Request, q.max_tokens = 1000 ∧
       analyze_image_from_url envWithKey trOk "http://example.com/a.png" "Describe" "auto"
         = Except.ok (singleResponseResult (trOk q)))
  ∧ (∃ q : Request, q.max_tokens = 1000 ∧
       analyze_image_from_file envWithKey fsSample trOk "img.png" "Describe" "auto"
         = Except.ok (singleResponseResult (trOk q)))
  ∧ (∃ q : Request, q.max_tokens = 1500 ∧
       analyze_multiple_images envWithKey fsSample trOk ["img.png"] "Compare"
         = Except.ok (multiResponseResult (trOk q))) :=
  C8_tokenCeiling envWithKey fsSample trOk
    "http://example.com/a.png" "img.png" "Describe" "auto" [137, 80] ["img.png"]
    [ContentBlock.imageUrl
       ("data:" ++ mimeTypeFor "img.png" ++ ";base64," ++ base64Encode [137, 80]) none]
    (by decide) rfl rfl

/-- C9: a successful `analyze_multiple_images` record carries only the
analysis and the total token count — its model and the separate
prompt/completion counters are absent — while both single-image
operations populate all of them on success. -/
theorem C9_multiFieldSubset (env : Env) (fs : FS) (tr : Transport)
    (url path prompt detail : String) (sources : List String) (r : AnalysisResult) :
    (analyze_multiple_images env fs tr sources prompt = Except.ok r → r.success = true →
       r.model = none ∧ r.prompt_tokens = none ∧ r.completion_tokens = none ∧
       r.analysis.isSome = true ∧ r.tokens_used.isSome = true)
  ∧ (analyze_image_from_url env tr url prompt detail = Except.ok r → r.success = true →
       r.model.isSome = true ∧ r.prompt_tokens.isSome = true ∧
       r.completion_tokens.isSome = true ∧ r.analysis.isSome = true ∧
       r.tokens_used.isSome = true)
  ∧ (analyze_image_from_file env fs tr path prompt detail = Except.ok r → r.success = true →
       r.model.isSome = true ∧ r.prompt_tokens.isSome = true ∧
       r.completion_tokens.isSome = true ∧ r.analysis.isSome = true ∧
       r.tokens_used.isSome = true) := by
  refine ⟨?_, ?_, ?_⟩
  · intro h hs
    obtain ⟨res, hr⟩ := analyze_multi_ok_form env fs tr sources prompt r h
    obtain ⟨resp, choice, rest, hres, hc, _⟩ :=
      multiResponseResult_success_src res r hr.symm hs
    rw [hr, hres]
    simp [multiResponseResult, hc]
  · intro h hs
    obtain ⟨res, hr⟩ := analyze_url_ok_form env tr url prompt detail r h
    obtain ⟨resp, choice, rest, hres, hc, _⟩ :=
      singleResponseResult_success_src res r hr.symm hs
    rw [hr, hres]
    simp [singleResponseResult, hc]
  · intro h hs
    obtain ⟨res, hr⟩ := analyze_file_ok_form env fs tr path prompt detail r h
    obtain ⟨resp, choice, rest, hres, hc, _⟩ :=
      singleResponseResult_success_src res r hr.symm hs
    rw [hr, hres]
    simp [singleResponseResult, hc]

/-- C9, witness: the concrete success records of the three operations
under the sample transport. -/
theorem C9_multiFieldSubset_witness :
    ((multiResponseResult (Except.ok respSample)).model = none ∧
     (multiResponseResult (Except.ok respSample)).prompt_tokens = none ∧
     (multiResponseResult (Except.ok respSample)).completion_tokens = none ∧
     (multiResponseResult (Except.ok respSample)).analysis.isSome = true ∧
     (multiResponseResult (Except.ok respSample)).tokens_used.isSome = true)
  ∧ (okUrlResult.model.isSome = true ∧ okUrlResult.prompt_tokens.isSome = true ∧
     okUrlResult.completion_tokens.isSome = true ∧ okUrlResult.analysis.isSome = true ∧
     okUrlResult.tokens_used.isSome = true) :=
  ⟨(C9_multiFieldSubset envWithKey fsSample trOk
      "http://example.com/a.png" "img.png" "Compare" "auto" ["https://x/b.jpg"]
      (multiResponseResult (Except.ok respSample))).1 rfl rfl,
   (C9_multiFieldSubset envWithKey fsSample trOk
      "http://example.com/a.png" "img.png" "Describe" "auto" ["https://x/b.jpg"]
      okUrlResult).2.1 rfl rfl⟩

/-- C10: with an empty source list the payload building succeeds with
zero image blocks, and the remote call is still made with a content list
holding only the text block. -/
theorem C10_emptySources (env : Env) (fs : FS) (tr : Transport) (prompt : String)
    (henv : truthy (env "OPENAI_API_KEY") = true) :
    buildContentList fs ([] : List String) = Except.ok []
  ∧ analyze_multiple_images env fs tr [] prompt
      = Except.ok (multiResponseResult (tr
          { model := "gpt-4o"
            content := [ContentBlock.text prompt]
            max_tokens := 1500 })) := by
  constructor
  · rfl
  · simp [analyze_multiple_images, henv, buildContentList]

/-- C10, witness. -/
theorem C10_emptySources_witness :
    buildContentList fsEmpty ([] : List String) = Except.ok []
  ∧ analyze_multiple_images envWithKey fsEmpty trOk [] "Compare"
      = Except.ok (multiResponseResult (trOk
          { model := "gpt-4o"
            content := [ContentBlock.text "Compare"]
            max_tokens := 1500 })) :=
  C10_emptySources envWithKey fsEmpty trOk "Compare" (by decide)

end VisionApp
